import Mathlib

/-!
Shallow embedding of the train-tracking application's core modules.

Numeric conventions:
* JavaScript numbers fed to the threshold comparisons are modelled as
  `WithTop ℚ`: every finite IEEE double is a rational, and `⊤` models the
  `Infinity` sentinel (so `⊤ ≤ c` is false for every finite threshold `c`,
  exactly as `Infinity <= c` is false in JavaScript).
* The haversine computation (`calculateDistance` in distanceCalc.js) uses
  real transcendental functions, so it is embedded over `ℝ`, with missing
  coordinates as `Option.none` and the `Infinity` sentinel as `⊤ : WithTop ℝ`.
-/

/-- Alarm states of the threshold state machine (distanceCalc.js,
`getAlarmState`). -/
inductive AlarmState where
  | safe
  | approaching
  | preAlert
  | alarm
  deriving DecidableEq

/-- `getAlarmState(distToDestKm, distToPrevKm)` from distanceCalc.js:
```
if (distToDestKm <= 2) return 'alarm';
if (distToPrevKm <= 0.5) return 'pre-alert';
if (distToDestKm <= 15) return 'approaching';
return 'safe';
```
Distances are extended rationals (`⊤` = JS `Infinity`). -/
def getAlarmState (distToDestKm distToPrevKm : WithTop ℚ) : AlarmState :=
  if distToDestKm ≤ ((2 : ℚ) : WithTop ℚ) then AlarmState.alarm
  else if distToPrevKm ≤ ((0.5 : ℚ) : WithTop ℚ) then AlarmState.preAlert
  else if distToDestKm ≤ ((15 : ℚ) : WithTop ℚ) then AlarmState.approaching
  else AlarmState.safe

/-- The option record passed to `navigator.geolocation.watchPosition`
(useGeolocation.js). -/
structure GeoOptions where
  enableHighAccuracy : Bool
  timeout : ℕ
  maximumAge : ℕ
  deriving DecidableEq

/-- `HIGH_ACCURACY_OPTIONS` from useGeolocation.js. -/
def HIGH_ACCURACY_OPTIONS : GeoOptions :=
  { enableHighAccuracy := true, timeout := 10000, maximumAge := 5000 }

/-- `LOW_ACCURACY_OPTIONS` from useGeolocation.js. -/
def LOW_ACCURACY_OPTIONS : GeoOptions :=
  { enableHighAccuracy := false, timeout := 30000, maximumAge := 60000 }

/-- The option-selection expression of `startWatching` in useGeolocation.js:
`const options = distanceToDestKm < 50 ? HIGH_ACCURACY_OPTIONS : LOW_ACCURACY_OPTIONS;`
(`distanceToDestKm` defaults to `Infinity`, modelled by `⊤`). -/
def selectGeoOptions (distanceToDestKm : WithTop ℚ) : GeoOptions :=
  if distanceToDestKm < ((50 : ℚ) : WithTop ℚ) then HIGH_ACCURACY_OPTIONS
  else LOW_ACCURACY_OPTIONS

/-- The JavaScript regex test `/^\d{5}$/.test(trainNo)` used by both bridge
servers (server.js `/api/train/:trainNo` and the route file): without the `m`
flag, `^`/`$` anchor at the very start/end of the input, so the test accepts
exactly the strings of exactly five decimal digits. -/
def validTrainNo (trainNo : String) : Bool :=
  trainNo.length == 5 && trainNo.data.all Char.isDigit

/-- Outcome of the synchronous prefix of the `/api/train/:trainNo` handler:
either an immediate rejection response (no upstream request is issued), or
the handler proceeds to call the upstream scraper for the given train number. -/
inductive TrainStatusResult where
  | badRequest (status : ℕ) (error : String)
  | upstream (trainNo : String)
  deriving DecidableEq

/-- The validation step of `app.get('/api/train/:trainNo')` in server.js (and
identically in the router file): an invalid train number is answered with
`res.status(400).json({ error: ... })` before any `axios.get` to the scraper. -/
def trainStatusHandler (trainNo : String) : TrainStatusResult :=
  if !(validTrainNo trainNo) then
    TrainStatusResult.badRequest 400 "Invalid train number. Must be 5 digits."
  else
    TrainStatusResult.upstream trainNo

/-- A station record as produced by `generateMockRoute` in server.js. -/
structure MockStation where
  index : ℕ
  name : String
  code : String
  arrivalTime : String
  departureTime : String
  delay : String
  latitude : Option ℚ
  longitude : Option ℚ
  status : Option String
  deriving DecidableEq

/-- `generateMockRoute(trainNo)` from server.js: the hardcoded
Chennai → Kanyakumari route, mapped to station records with their list index.
The `trainNo` argument is ignored by the source function as well. -/
def generateMockRoute (_trainNo : String) : List MockStation :=
  (([ ("Chennai Central", "MAS", (13.0827 : ℚ), (80.2707 : ℚ), "Origin", "07:10"),
      ("Chengalpattu", "CGL", 12.6921, 79.9765, "08:18", "08:20"),
      ("Villupuram Junction", "VM", 11.9393, 79.4924, "09:48", "09:53"),
      ("Cuddalore Port", "CUPJ", 11.7447, 79.7678, "10:22", "10:24"),
      ("Chidambaram", "CDM", 11.3993, 79.6934, "11:05", "11:07"),
      ("Mayiladuthurai Jn", "MV", 11.1034, 79.6508, "11:55", "12:00"),
      ("Thanjavur Junction", "TJ", 10.7870, 79.1378, "13:00", "13:05"),
      ("Trichy Junction", "TPJ", 10.8155, 78.6877, "14:05", "14:15"),
      ("Dindigul Junction", "DG", 10.3673, 77.9803, "15:18", "15:20"),
      ("Madurai Junction", "MDU", 9.9252, 78.1198, "16:30", "16:40"),
      ("Virudhunagar Jn", "VPT", 9.5810, 77.9624, "17:28", "17:30"),
      ("Tirunelveli Jn", "TEN", 8.7139, 77.7567, "18:55", "19:00"),
      ("Nagercoil Junction", "NCJ", 8.1833, 77.4119, "19:55", "20:00"),
      ("Kanyakumari", "CAPE", 8.0883, 77.5385, "20:30", "Terminus") ]
    : List (String × String × ℚ × ℚ × String × String)).enum).map
    (fun p =>
      { index := p.1
        name := p.2.1
        code := p.2.2.1
        arrivalTime := p.2.2.2.2.2.1
        departureTime := p.2.2.2.2.2.2
        delay := "00:00"
        latitude := some p.2.2.2.1
        longitude := some p.2.2.2.2.1
        status := none })

/-- The JSON body sent by `app.get('/api/demo/:trainNo')` in server.js.
The `lastUpdated` wall-clock timestamp is the only field not modelled (it is
`new Date().toISOString()`, a clock read, and carries no route data). -/
structure DemoResponse where
  success : Bool
  trainNumber : String
  trainName : String
  stations : List MockStation
  isDemo : Bool
  deriving DecidableEq

/-- `app.get('/api/demo/:trainNo')` from server.js: unconditionally answers
with the mock route; no upstream call appears in the handler. -/
def demoHandler (trainNo : String) : DemoResponse :=
  { success := true
    trainNumber := trainNo
    trainName := "Chennai Kanyakumari Cape Express (" ++ trainNo ++ ")"
    stations := generateMockRoute trainNo
    isDemo := true }

/-- JavaScript `Math.round`: round half toward positive infinity. -/
def jsRound (q : ℚ) : ℤ := ⌊q + 1 / 2⌋

/-- Two-digit zero-padded rendering of an integer in `[0, 100)`. -/
def twoDigits (m : ℤ) : String :=
  if m < 10 then "0" ++ toString m else toString m

/-- JavaScript `x.toFixed(2)` for nonnegative rationals: per the ECMAScript
specification the chosen integer `n` with `n / 100` closest to `x` breaks
ties upward, i.e. `n = ⌊100x + 1/2⌋`. -/
def toFixed2 (q : ℚ) : String :=
  toString (jsRound (q * 100) / 100) ++ "." ++ twoDigits (jsRound (q * 100) % 100)

/-- JavaScript `x.toFixed(1)` for nonnegative rationals (used in the alarm
notification body). -/
def toFixed1 (q : ℚ) : String :=
  toString (jsRound (q * 10) / 10) ++ "." ++ toString (jsRound (q * 10) % 10)

/-- A JavaScript number as consumed by `formatDistance`: `NaN`, `Infinity`,
or a finite value (every finite IEEE double is rational). -/
inductive JSNum where
  | nan
  | inf
  | val (q : ℚ)
  deriving DecidableEq

/-- `formatDistance(km)` from distanceCalc.js:
```
if (km === Infinity || isNaN(km)) return '—';
if (km < 1) return `${Math.round(km * 1000)} m`;
if (km < 10) return `${km.toFixed(2)} km`;
return `${Math.round(km)} km`;
```
-/
def formatDistance : JSNum → String
  | JSNum.nan => "—"
  | JSNum.inf => "—"
  | JSNum.val km =>
    if km < 1 then toString (jsRound (km * 1000)) ++ " m"
    else if km < 10 then toFixed2 km ++ " km"
    else toString (jsRound km) ++ " km"

/-- The option bag handed to `self.registration.showNotification` in sw.js.
Fields that sw.js leaves unset take the Web Notifications defaults
(`renotify: false`, no badge, no actions, empty data). -/
structure SWNotification where
  title : String
  body : String
  icon : Option String
  badge : Option String
  tag : String
  renotify : Bool
  requireInteraction : Bool
  vibrate : List ℕ
  actions : List (String × String)
  deriving DecidableEq

/-- `showAlarmNotification({stationName, distance})` from sw.js. -/
def showAlarmNotification (stationName : String) (distance : ℚ) : SWNotification :=
  { title := "🚨 WAKE UP! Destination Approaching!"
    body := stationName ++ " is " ++
      (if distance < 1 then toString (jsRound (distance * 1000)) ++ "m"
       else toFixed1 distance ++ "km") ++ " away. Get ready!"
    icon := some "/icons/icon-192x192.png"
    badge := some "/icons/badge-72x72.png"
    tag := "destination-alarm"
    renotify := true
    requireInteraction := true
    vibrate := [500, 200, 500, 200, 500, 200, 1000]
    actions := [("dismiss", "✅ I\x27m Awake!"), ("snooze", "⏰ Snooze 2 min")] }

/-- `showPreAlertNotification({prevStationName, destStationName})` from sw.js. -/
def showPreAlertNotification (prevStationName destStationName : String) : SWNotification :=
  { title := "⚠️ Next Stop Alert"
    body := "Leaving " ++ prevStationName ++ ". Your destination " ++
      destStationName ++ " is the next stop!"
    icon := some "/icons/icon-192x192.png"
    badge := none
    tag := "pre-alert"
    renotify := false
    requireInteraction := false
    vibrate := [200, 100, 200]
    actions := [] }

/-- Messages the service worker receives from the main thread (sw.js
`message` listener). The `CACHE_ROUTE` payload content is irrelevant to the
notification claims and kept abstract as a string. -/
inductive SWMessage where
  | triggerAlarm (stationName : String) (distance : ℚ)
  | preAlert (prevStationName destStationName : String)
  | cacheRoute (payload : String)
  deriving DecidableEq

/-- The sw.js `message` listener: `TRIGGER_ALARM` renders the alarm
notification, `PRE_ALERT` the pre-alert notification, `CACHE_ROUTE` renders
nothing (it writes the cache slot). -/
def handleMessage : SWMessage → Option SWNotification
  | SWMessage.triggerAlarm stationName distance =>
      some (showAlarmNotification stationName distance)
  | SWMessage.preAlert prevStationName destStationName =>
      some (showPreAlertNotification prevStationName destStationName)
  | SWMessage.cacheRoute _ => none

/-- A station as consumed by `useSimulatedGeolocation` (nullable coordinate
fields, finite values rational). -/
structure SimStation where
  latitude : Option ℚ
  longitude : Option ℚ
  deriving DecidableEq

/-- JavaScript truthiness of a nullable numeric field, as used by
`!from?.latitude`: `null`/`undefined` and `0` are falsy. -/
def truthy : Option ℚ → Bool
  | none => false
  | some q => !(q == 0)

/-- `stations[i]` with JavaScript out-of-range semantics: an absent element
behaves like a record whose optional fields are all `undefined` (the code
only ever reads it through the optional chain `from?.latitude`). -/
def stationAt (stations : List SimStation) (i : ℕ) : SimStation :=
  (stations[i]?).getD { latitude := none, longitude := none }

/-- Linear interpolation as written in useSimulatedGeolocation:
`from + (to - from) * t`, lifted over nullable operands (a `none` operand
makes the result `none`, standing for the `NaN` JavaScript would produce). -/
def optInterp (a b : Option ℚ) (t : ℚ) : Option ℚ :=
  match a, b with
  | some x, some y => some (x + (y - x) * t)
  | _, _ => none

/-- `STEPS_PER_SEGMENT` from useSimulatedGeolocation. -/
def STEPS_PER_SEGMENT : ℕ := 100

/-- The mutable loop variables of the `setInterval` callback in
`useSimulatedGeolocation`, plus whether `clearInterval` has run. -/
structure SimState where
  seg : ℕ
  step : ℕ
  stopped : Bool
  deriving DecidableEq

/-- One firing of the `setInterval` callback in `useSimulatedGeolocation`
(the code path for an active simulation over `stations`):
```
if (seg >= stations.length - 1) { clearInterval(...); return; }
const from = stations[seg];
const to = stations[seg + 1];
if (!from?.latitude || !to?.latitude) { seg++; step = 0; return; }
const t = step / STEPS_PER_SEGMENT;
const lat = from.latitude + (to.latitude - from.latitude) * t;
const lon = from.longitude + (to.longitude - from.longitude) * t;
setPosition({ lat, lon, ... });
step++;
if (step > STEPS_PER_SEGMENT) { step = 0; seg++; }
```
Returns the successor state and the emitted sample, if any. A stopped state
never fires again, modelled as an absorbing state emitting nothing. -/
def simTick (stations : List SimStation) (s : SimState) :
    SimState × Option (Option ℚ × Option ℚ) :=
  if s.stopped then (s, none)
  else if stations.length - 1 ≤ s.seg then
    ({ s with stopped := true }, none)
  else
    let f := stationAt stations s.seg
    let g := stationAt stations (s.seg + 1)
    if !(truthy f.latitude) || !(truthy g.latitude) then
      ({ seg := s.seg + 1, step := 0, stopped := false }, none)
    else
      let t : ℚ := (s.step : ℚ) / (STEPS_PER_SEGMENT : ℚ)
      let lat := optInterp f.latitude g.latitude t
      let lon := optInterp f.longitude g.longitude t
      if STEPS_PER_SEGMENT < s.step + 1 then
        ({ seg := s.seg + 1, step := 0, stopped := false }, some (lat, lon))
      else
        ({ seg := s.seg, step := s.step + 1, stopped := false }, some (lat, lon))

/-- Loop state before the `n`-th firing of the interval callback
(`seg = 0, step = 0` initially, as set by `let seg = 0; let step = 0;`). -/
def simState (stations : List SimStation) : ℕ → SimState
  | 0 => { seg := 0, step := 0, stopped := false }
  | n + 1 => (simTick stations (simState stations n)).1

/-- The position sample emitted by the `n`-th firing of the interval
callback (`none` when that firing emits nothing). -/
def simEmit (stations : List SimStation) (n : ℕ) : Option (Option ℚ × Option ℚ) :=
  (simTick stations (simState stations n)).2

/-- A station with both coordinates present and a latitude that survives the
JavaScript truthiness test of the simulator (nonzero). -/
def goodStation (st : SimStation) : Bool :=
  truthy st.latitude && st.longitude.isSome

/-- Concrete two-station route used to instantiate the simulator theorems. -/
def simDemoStations : List SimStation :=
  [ { latitude := some 13, longitude := some 80 },
    { latitude := some 12, longitude := some 79 } ]

/-- Concrete two-station route whose coordinates are all present but whose
first latitude is `0`, which JavaScript truthiness treats as missing. -/
def simZeroLatStations : List SimStation :=
  [ { latitude := some 0, longitude := some 80 },
    { latitude := some 12, longitude := some 79 } ]

/-- `EARTH_RADIUS_KM` from distanceCalc.js. -/
def EARTH_RADIUS_KM : ℝ := 6371

/-- `toRadians(degrees)` from distanceCalc.js: `degrees * (Math.PI / 180)`. -/
noncomputable def toRadians (degrees : ℝ) : ℝ := degrees * (Real.pi / 180)

/-- JavaScript `Math.atan2(y, x)` on reals (signed zeros are not
distinguished; only the `x > 0` branch is ever reached by `calculateDistance`
because its second argument there is a square root of a positive number). -/
noncomputable def atan2 (y x : ℝ) : ℝ :=
  if 0 < x then Real.arctan (y / x)
  else if x < 0 then
    (if 0 ≤ y then Real.arctan (y / x) + Real.pi else Real.arctan (y / x) - Real.pi)
  else
    (if 0 < y then Real.pi / 2 else if y < 0 then -(Real.pi / 2) else 0)

/-- The arithmetic body of `calculateDistance` (all four coordinates
present), exactly as written in distanceCalc.js:
```
const φ1 = toRadians(lat1);
const φ2 = toRadians(lat2);
const Δφ = toRadians(lat2 - lat1);
const Δλ = toRadians(lon2 - lon1);
const a = Math.sin(Δφ/2) * Math.sin(Δφ/2) +
          Math.cos(φ1) * Math.cos(φ2) * Math.sin(Δλ/2) * Math.sin(Δλ/2);
const c = 2 * Math.atan2(Math.sqrt(a), Math.sqrt(1 - a));
return EARTH_RADIUS_KM * c;
```
-/
noncomputable def haversine (lat1 lon1 lat2 lon2 : ℝ) : ℝ :=
  let phi1 := toRadians lat1
  let phi2 := toRadians lat2
  let dphi := toRadians (lat2 - lat1)
  let dlam := toRadians (lon2 - lon1)
  let a := Real.sin (dphi / 2) * Real.sin (dphi / 2) +
    Real.cos phi1 * Real.cos phi2 * Real.sin (dlam / 2) * Real.sin (dlam / 2)
  let c := 2 * atan2 (Real.sqrt a) (Real.sqrt (1 - a))
  EARTH_RADIUS_KM * c

/-- `calculateDistance(lat1, lon1, lat2, lon2)` from distanceCalc.js: a
`== null` coordinate (null or undefined, modelled by `none`) short-circuits
to the `Infinity` sentinel (`⊤`); otherwise the haversine value is returned. -/
noncomputable def calculateDistance (lat1 lon1 lat2 lon2 : Option ℝ) : WithTop ℝ :=
  match lat1, lon1, lat2, lon2 with
  | some la1, some lo1, some la2, some lo2 =>
      ((haversine la1 lo1 la2 lo2 : ℝ) : WithTop ℝ)
  | _, _, _, _ => (⊤ : WithTop ℝ)

/-! ## Theorems -/

/-- **C1.** For every pair of distance inputs `(distToDestKm, distToPrevKm)`,
the alarm state is decided by the four-way priority rule with first match
winning: `distToDest ≤ 2` yields `alarm`; otherwise `distToPrev ≤ 0.5`
yields `pre-alert`; otherwise `distToDest ≤ 15` yields `approaching`;
otherwise `safe` — so every distance pair maps to exactly one of the four
states (the function is total and deterministic). -/
theorem getAlarmState_priority_rule (dd dp : WithTop ℚ) :
    (dd ≤ ((2 : ℚ) : WithTop ℚ) → getAlarmState dd dp = AlarmState.alarm) ∧
    (¬ dd ≤ ((2 : ℚ) : WithTop ℚ) → dp ≤ ((0.5 : ℚ) : WithTop ℚ) →
      getAlarmState dd dp = AlarmState.preAlert) ∧
    (¬ dd ≤ ((2 : ℚ) : WithTop ℚ) → ¬ dp ≤ ((0.5 : ℚ) : WithTop ℚ) →
      dd ≤ ((15 : ℚ) : WithTop ℚ) → getAlarmState dd dp = AlarmState.approaching) ∧
    (¬ dd ≤ ((2 : ℚ) : WithTop ℚ) → ¬ dp ≤ ((0.5 : ℚ) : WithTop ℚ) →
      ¬ dd ≤ ((15 : ℚ) : WithTop ℚ) → getAlarmState dd dp = AlarmState.safe) ∧
    (getAlarmState dd dp = AlarmState.alarm ∨ getAlarmState dd dp = AlarmState.preAlert ∨
      getAlarmState dd dp = AlarmState.approaching ∨ getAlarmState dd dp = AlarmState.safe) := by
  unfold getAlarmState
  refine ⟨fun h1 => ?_, fun h1 h2 => ?_, fun h1 h2 h3 => ?_, fun h1 h2 h3 => ?_, ?_⟩
  · rw [if_pos h1]
  · rw [if_neg h1, if_pos h2]
  · rw [if_neg h1, if_neg h2, if_pos h3]
  · rw [if_neg h1, if_neg h2, if_neg h3]
  · split_ifs <;> simp

/-- Witness for C1: one concrete instance per priority branch. -/
theorem getAlarmState_priority_rule_witness :
    getAlarmState ((1 : ℚ) : WithTop ℚ) ((10 : ℚ) : WithTop ℚ) = AlarmState.alarm ∧
    getAlarmState ((3 : ℚ) : WithTop ℚ) ((0.4 : ℚ) : WithTop ℚ) = AlarmState.preAlert ∧
    getAlarmState ((12 : ℚ) : WithTop ℚ) ((7 : ℚ) : WithTop ℚ) = AlarmState.approaching ∧
    getAlarmState ((40 : ℚ) : WithTop ℚ) ((7 : ℚ) : WithTop ℚ) = AlarmState.safe := by
  have hle : ((0.4 : ℚ) : WithTop ℚ) ≤ ((0.5 : ℚ) : WithTop ℚ) := by
    rw [WithTop.coe_le_coe]; norm_num
  have hnle : ¬ ((7 : ℚ) : WithTop ℚ) ≤ ((0.5 : ℚ) : WithTop ℚ) := by
    rw [WithTop.coe_le_coe]; norm_num
  exact ⟨(getAlarmState_priority_rule _ _).1 (by decide),
    (getAlarmState_priority_rule _ _).2.1 (by decide) hle,
    (getAlarmState_priority_rule _ _).2.2.1 (by decide) hnle (by decide),
    (getAlarmState_priority_rule _ _).2.2.2.1 (by decide) hnle (by decide)⟩

/-- **C2.** Any missing coordinate makes `calculateDistance` return the
infinite sentinel `⊤`, and the alarm rule evaluated on infinite distances
yields `safe`. -/
theorem missing_coordinate_infinite_and_safe :
    (∀ lat1 lon1 lat2 lon2 : Option ℝ,
      lat1 = none ∨ lon1 = none ∨ lat2 = none ∨ lon2 = none →
      calculateDistance lat1 lon1 lat2 lon2 = (⊤ : WithTop ℝ)) ∧
    getAlarmState ⊤ ⊤ = AlarmState.safe := by
  constructor
  · intro lat1 lon1 lat2 lon2 h
    rcases h with rfl | rfl | rfl | rfl
    · rfl
    · cases lat1 <;> rfl
    · cases lat1 <;> cases lon1 <;> rfl
    · cases lat1 <;> cases lon1 <;> cases lat2 <;> rfl
  · decide

/-- Witness for C2: a concrete quadruple with a missing first latitude. -/
theorem missing_coordinate_infinite_and_safe_witness :
    calculateDistance none (some 0) (some 0) (some 0) = (⊤ : WithTop ℝ) ∧
    getAlarmState ⊤ ⊤ = AlarmState.safe :=
  ⟨missing_coordinate_infinite_and_safe.1 none (some 0) (some 0) (some 0) (Or.inl rfl),
    missing_coordinate_infinite_and_safe.2⟩

/-- **C4.** The live position source selects the high-accuracy option set
(`enableHighAccuracy`, timeout 10 s, maximumAge 5 s) exactly when the
current distance to destination is below 50 km, and the low-accuracy set
(timeout 30 s, maximumAge 60 s) otherwise. -/
theorem selectGeoOptions_adaptive (d : WithTop ℚ) :
    (d < ((50 : ℚ) : WithTop ℚ) →
      selectGeoOptions d =
        { enableHighAccuracy := true, timeout := 10000, maximumAge := 5000 }) ∧
    (¬ d < ((50 : ℚ) : WithTop ℚ) →
      selectGeoOptions d =
        { enableHighAccuracy := false, timeout := 30000, maximumAge := 60000 }) := by
  unfold selectGeoOptions HIGH_ACCURACY_OPTIONS LOW_ACCURACY_OPTIONS
  exact ⟨fun h => by rw [if_pos h], fun h => by rw [if_neg h]⟩

/-- Witness for C4: 10 km selects high accuracy, the `Infinity` default
selects low accuracy. -/
theorem selectGeoOptions_adaptive_witness :
    selectGeoOptions ((10 : ℚ) : WithTop ℚ) =
      { enableHighAccuracy := true, timeout := 10000, maximumAge := 5000 } ∧
    selectGeoOptions (⊤ : WithTop ℚ) =
      { enableHighAccuracy := false, timeout := 30000, maximumAge := 60000 } :=
  ⟨(selectGeoOptions_adaptive _).1 (by decide),
    (selectGeoOptions_adaptive _).2 (by decide)⟩

/-- **C5.** A train-number path parameter that is not a string of exactly
five decimal digits is answered with HTTP 400 and an error message; the
handler result is the `badRequest` outcome, not the `upstream` one, so the
upstream provider is never contacted. -/
theorem trainStatus_invalid_number_rejected (trainNo : String)
    (h : ¬ (trainNo.length = 5 ∧ ∀ c ∈ trainNo.data, c.isDigit)) :
    trainStatusHandler trainNo =
      TrainStatusResult.badRequest 400 "Invalid train number. Must be 5 digits." := by
  have hv : validTrainNo trainNo = false := by
    cases hvb : validTrainNo trainNo
    · rfl
    · exfalso
      apply h
      unfold validTrainNo at hvb
      rcases Bool.and_eq_true _ _ |>.mp hvb with ⟨h5, hall⟩
      exact ⟨beq_iff_eq.mp h5, List.all_eq_true.mp hall⟩
  unfold trainStatusHandler
  rw [hv]
  rfl

/-- Witness for C5: the six-character string "1234a5" is rejected. -/
theorem trainStatus_invalid_number_rejected_witness :
    trainStatusHandler "1234a5" =
      TrainStatusResult.badRequest 400 "Invalid train number. Must be 5 digits." :=
  trainStatus_invalid_number_rejected "1234a5" (by decide)

/-- **C6.** The demo endpoint succeeds on every train number: the response
is marked successful, carries exactly the hardcoded 14-station
Chennai → Kanyakumari route in which every station has present coordinates,
a nonempty name, a nonempty code and its sequence index, and the handler is
a pure function of the train number (no external call appears in it). -/
theorem demoEndpoint_always_succeeds (trainNo : String) :
    (demoHandler trainNo).success = true ∧
    (demoHandler trainNo).isDemo = true ∧
    (demoHandler trainNo).trainNumber = trainNo ∧
    (demoHandler trainNo).stations.length = 14 ∧
    ((demoHandler trainNo).stations.all fun st =>
      st.latitude.isSome && st.longitude.isSome &&
      !(st.name == "") && !(st.code == "")) = true ∧
    (demoHandler trainNo).stations.map MockStation.index = List.range 14 := by
  exact ⟨rfl, rfl, rfl, rfl, rfl, rfl⟩

/-- **C9.** Every `TRIGGER_ALARM` message renders a persistent notification
(`requireInteraction := true`, tag `destination-alarm`), and every
`PRE_ALERT` message renders a non-persistent one
(`requireInteraction := false`, tag `pre-alert`). -/
theorem notification_persistence_by_category (stationName : String) (distance : ℚ)
    (prevStationName destStationName : String) :
    (∃ n, handleMessage (SWMessage.triggerAlarm stationName distance) = some n ∧
      n.requireInteraction = true ∧ n.tag = "destination-alarm") ∧
    (∃ n, handleMessage (SWMessage.preAlert prevStationName destStationName) = some n ∧
      n.requireInteraction = false ∧ n.tag = "pre-alert") :=
  ⟨⟨showAlarmNotification stationName distance, rfl, rfl, rfl⟩,
    ⟨showPreAlertNotification prevStationName destStationName, rfl, rfl, rfl⟩⟩

/-- Helper: a string ending in `" m"` is not the placeholder dash. -/
theorem append_m_ne_dash (s : String) : s ++ " m" ≠ "—" := by
  intro h
  have hlen := congrArg String.length h
  rw [String.length_append] at hlen
  have h1 : (" m" : String).length = 2 := rfl
  have h2 : ("—" : String).length = 1 := rfl
  rw [h1, h2] at hlen
  omega

/-- Helper: a string ending in `" km"` is not the placeholder dash. -/
theorem append_km_ne_dash (s : String) : s ++ " km" ≠ "—" := by
  intro h
  have hlen := congrArg String.length h
  rw [String.length_append] at hlen
  have h1 : (" km" : String).length = 3 := rfl
  have h2 : ("—" : String).length = 1 := rfl
  rw [h1, h2] at hlen
  omega

/-- **C10.** `formatDistance` returns the placeholder `—` exactly on
`Infinity` and `NaN`; for finite nonnegative inputs it renders rounded
meters below 1 km, two-decimal kilometers below 10 km, and rounded
kilometers otherwise. -/
theorem formatDistance_cases :
    (∀ x : JSNum, formatDistance x = "—" ↔ x = JSNum.inf ∨ x = JSNum.nan) ∧
    (∀ q : ℚ, 0 ≤ q →
      (q < 1 → formatDistance (JSNum.val q) = toString (jsRound (q * 1000)) ++ " m") ∧
      (1 ≤ q → q < 10 → formatDistance (JSNum.val q) = toFixed2 q ++ " km") ∧
      (10 ≤ q → formatDistance (JSNum.val q) = toString (jsRound q) ++ " km")) := by
  constructor
  · intro x
    cases x with
    | nan => simp [formatDistance]
    | inf => simp [formatDistance]
    | val q =>
      simp only [formatDistance]
      constructor
      · intro h
        split_ifs at h
        · exact absurd h (append_m_ne_dash _)
        · exact absurd h (append_km_ne_dash _)
        · exact absurd h (append_km_ne_dash _)
      · rintro (h | h) <;> exact JSNum.noConfusion h
  · intro q hq
    refine ⟨fun h1 => ?_, fun h1 h2 => ?_, fun h1 => ?_⟩
    · simp [formatDistance, h1]
    · simp [formatDistance, not_lt.mpr h1, h2]
    · have hq1 : ¬ q < 1 := not_lt.mpr (by linarith)
      have hq10 : ¬ q < 10 := not_lt.mpr h1
      simp [formatDistance, hq1, hq10]

/-- Witness for C10: one concrete instance per rendering branch. -/
theorem formatDistance_cases_witness :
    formatDistance (JSNum.val (1 / 2)) = "500 m" ∧
    formatDistance (JSNum.val 5) = "5.00 km" ∧
    formatDistance (JSNum.val 20) = "20 km" := by
  have h1 := (formatDistance_cases.2 (1 / 2) (by norm_num)).1 (by norm_num)
  have h2 := (formatDistance_cases.2 5 (by norm_num)).2.1 (by norm_num) (by norm_num)
  have h3 := (formatDistance_cases.2 20 (by norm_num)).2.2 (by norm_num)
  have e1 : jsRound ((1 / 2 : ℚ) * 1000) = 500 := by
    unfold jsRound; rw [Int.floor_eq_iff]; norm_num
  have e2 : jsRound ((5 : ℚ) * 100) = 500 := by
    unfold jsRound; rw [Int.floor_eq_iff]; norm_num
  have e3 : jsRound (20 : ℚ) = 20 := by
    unfold jsRound; rw [Int.floor_eq_iff]; norm_num
  refine ⟨?_, ?_, ?_⟩
  · rw [h1, e1]; rfl
  · rw [h2]; unfold toFixed2; rw [e2]; rfl
  · rw [h3, e3]; rfl

/-- The haversine body is symmetric in its two coordinate pairs. -/
theorem haversine_symm (lat1 lon1 lat2 lon2 : ℝ) :
    haversine lat1 lon1 lat2 lon2 = haversine lat2 lon2 lat1 lon1 := by
  simp only [haversine, toRadians, EARTH_RADIUS_KM]
  have hA : Real.sin ((lat1 - lat2) * (Real.pi / 180) / 2) *
        Real.sin ((lat1 - lat2) * (Real.pi / 180) / 2) +
        Real.cos (lat2 * (Real.pi / 180)) * Real.cos (lat1 * (Real.pi / 180)) *
        Real.sin ((lon1 - lon2) * (Real.pi / 180) / 2) *
        Real.sin ((lon1 - lon2) * (Real.pi / 180) / 2) =
      Real.sin ((lat2 - lat1) * (Real.pi / 180) / 2) *
        Real.sin ((lat2 - lat1) * (Real.pi / 180) / 2) +
        Real.cos (lat1 * (Real.pi / 180)) * Real.cos (lat2 * (Real.pi / 180)) *
        Real.sin ((lon2 - lon1) * (Real.pi / 180) / 2) *
        Real.sin ((lon2 - lon1) * (Real.pi / 180) / 2) := by
    have e1 : (lat1 - lat2) * (Real.pi / 180) / 2 =
        -((lat2 - lat1) * (Real.pi / 180) / 2) := by ring
    have e2 : (lon1 - lon2) * (Real.pi / 180) / 2 =
        -((lon2 - lon1) * (Real.pi / 180) / 2) := by ring
    rw [e1, e2, Real.sin_neg, Real.sin_neg]
    ring
  rw [hA]

/-- **C7.** `calculateDistance` is symmetric in its two (present)
coordinate pairs. -/
theorem calculateDistance_symmetric (lat1 lon1 lat2 lon2 : ℝ) :
    calculateDistance (some lat1) (some lon1) (some lat2) (some lon2) =
      calculateDistance (some lat2) (some lon2) (some lat1) (some lon1) :=
  congrArg (fun x : ℝ => (x : WithTop ℝ)) (haversine_symm lat1 lon1 lat2 lon2)

/-- Helper: on an all-good route, every indexed station is good. -/
theorem stationAt_good (stations : List SimStation) (i : ℕ) (hi : i < stations.length)
    (hgood : stations.all goodStation = true) :
    goodStation (stationAt stations i) = true := by
  unfold stationAt
  rw [List.getElem?_eq_getElem hi]
  exact List.all_eq_true.mp hgood _ (List.getElem_mem hi)

/-- Helper: one interval firing in the middle of segment `i` of an all-good
route emits the interpolated sample at `t = step / 100` and advances the
loop counters (wrapping to the next segment after step 100). -/
theorem simTick_run (stations : List SimStation) (i k : ℕ)
    (hik : i + 1 < stations.length) (hgood : stations.all goodStation = true)
    (hk : k ≤ 100) :
    simTick stations { seg := i, step := k, stopped := false } =
      ((if k = 100 then { seg := i + 1, step := 0, stopped := false }
        else { seg := i, step := k + 1, stopped := false } : SimState),
       some (optInterp (stationAt stations i).latitude
               (stationAt stations (i + 1)).latitude ((k : ℚ) / 100),
             optInterp (stationAt stations i).longitude
               (stationAt stations (i + 1)).longitude ((k : ℚ) / 100))) := by
  have hseg : ¬ stations.length - 1 ≤ i := by omega
  have hf := stationAt_good stations i (by omega) hgood
  have hg := stationAt_good stations (i + 1) hik hgood
  unfold goodStation at hf hg
  have hft : truthy (stationAt stations i).latitude = true :=
    (Bool.and_eq_true _ _ |>.mp hf).1
  have hgt : truthy (stationAt stations (i + 1)).latitude = true :=
    (Bool.and_eq_true _ _ |>.mp hg).1
  by_cases hk100 : k = 100
  · subst hk100
    have hstepc : STEPS_PER_SEGMENT < 100 + 1 := by unfold STEPS_PER_SEGMENT; omega
    simp [simTick, hseg, hft, hgt, hstepc, STEPS_PER_SEGMENT]
  · have hstepc : ¬ STEPS_PER_SEGMENT < k + 1 := by unfold STEPS_PER_SEGMENT; omega
    simp [simTick, hseg, hft, hgt, hstepc, hk100, STEPS_PER_SEGMENT]
    omega

/-- Helper: closed form of the loop state of an all-good simulation:
before firing number `i * 101 + k` (with `k ≤ 100`, segment `i` not the
last), the loop is at segment `i`, step `k`, still running. -/
theorem simState_formula (stations : List SimStation)
    (hgood : stations.all goodStation = true) :
    ∀ i k, i + 1 < stations.length → k ≤ 100 →
      simState stations (i * 101 + k) = { seg := i, step := k, stopped := false } := by
  have hstep : ∀ m, simState stations (m + 1) = (simTick stations (simState stations m)).1 :=
    fun _ => rfl
  intro i
  induction i with
  | zero =>
    intro k
    induction k with
    | zero => intro _ _; rfl
    | succ k ihk =>
      intro hlen hk
      have h1 : 0 * 101 + (k + 1) = (0 * 101 + k) + 1 := by ring
      rw [h1, hstep, ihk hlen (by omega),
        simTick_run stations 0 k hlen hgood (by omega)]
      have hne : k ≠ 100 := by omega
      simp [hne]
  | succ i ihi =>
    intro k
    induction k with
    | zero =>
      intro hlen _
      have h1 : (i + 1) * 101 + 0 = (i * 101 + 100) + 1 := by ring
      rw [h1, hstep, ihi 100 (by omega) (by omega),
        simTick_run stations i 100 (by omega) hgood (by omega)]
      simp
    | succ k ihk =>
      intro hlen hk
      have h1 : (i + 1) * 101 + (k + 1) = ((i + 1) * 101 + k) + 1 := by ring
      rw [h1, hstep, ihk hlen (by omega),
        simTick_run stations (i + 1) k hlen hgood (by omega)]
      have hne : k ≠ 100 := by omega
      simp [hne]

/-- Helper: firing number `i * 101 + 100` (the final interpolation step of
segment `i`, `t = 1`) emits exactly the coordinates of station `i + 1`. -/
theorem simEmit_boundary (stations : List SimStation)
    (hgood : stations.all goodStation = true) (i : ℕ) (hik : i + 1 < stations.length) :
    simEmit stations (i * 101 + 100) =
      some ((stationAt stations (i + 1)).latitude, (stationAt stations (i + 1)).longitude) := by
  unfold simEmit
  rw [simState_formula stations hgood i 100 hik le_rfl,
    simTick_run stations i 100 hik hgood le_rfl]
  have hf := stationAt_good stations i (by omega) hgood
  have hg := stationAt_good stations (i + 1) hik hgood
  unfold goodStation at hf hg
  rcases Bool.and_eq_true _ _ |>.mp hf with ⟨hflat, hflon⟩
  rcases Bool.and_eq_true _ _ |>.mp hg with ⟨hglat, hglon⟩
  obtain ⟨fa, hfa⟩ : ∃ a, (stationAt stations i).latitude = some a := by
    cases h : (stationAt stations i).latitude
    · rw [h] at hflat; exact absurd hflat (by simp [truthy])
    · exact ⟨_, rfl⟩
  obtain ⟨fb, hfb⟩ : ∃ b, (stationAt stations i).longitude = some b :=
    Option.isSome_iff_exists.mp hflon
  obtain ⟨ga, hga⟩ : ∃ a, (stationAt stations (i + 1)).latitude = some a := by
    cases h : (stationAt stations (i + 1)).latitude
    · rw [h] at hglat; exact absurd hglat (by simp [truthy])
    · exact ⟨_, rfl⟩
  obtain ⟨gb, hgb⟩ : ∃ b, (stationAt stations (i + 1)).longitude = some b :=
    Option.isSome_iff_exists.mp hglon
  rw [hfa, hfb, hga, hgb]
  simp only [optInterp, Option.some.injEq, Prod.mk.injEq, Nat.cast_ofNat]
  constructor <;> ring

/-- Helper: once the last segment has completed (firing number
`(length - 1) * 101` and later), the simulation emits nothing ever again. -/
theorem simEmit_stops (stations : List SimStation)
    (hgood : stations.all goodStation = true) (h2 : 2 ≤ stations.length) :
    ∀ m, (stations.length - 1) * 101 ≤ m → simEmit stations m = none := by
  have hstep : ∀ m, simState stations (m + 1) = (simTick stations (simState stations m)).1 :=
    fun _ => rfl
  obtain ⟨n2, hn2⟩ : ∃ n2, stations.length = n2 + 2 := ⟨stations.length - 2, by omega⟩
  have hstate : simState stations ((stations.length - 1) * 101) =
      { seg := stations.length - 1, step := 0, stopped := false } := by
    have h1 : (stations.length - 1) * 101 = (n2 * 101 + 100) + 1 := by
      have he : stations.length - 1 = n2 + 1 := by omega
      rw [he]; ring
    rw [h1, hstep, simState_formula stations hgood n2 100 (by omega) le_rfl,
      simTick_run stations n2 100 (by omega) hgood le_rfl]
    simp
    omega
  have habs : ∀ j, simState stations ((stations.length - 1) * 101 + 1 + j) =
      { seg := stations.length - 1, step := 0, stopped := true } := by
    intro j
    induction j with
    | zero =>
      rw [Nat.add_zero, hstep, hstate]
      have hle : stations.length - 1 ≤ stations.length - 1 := le_rfl
      simp [simTick, hle]
    | succ j ihj =>
      have h1 : (stations.length - 1) * 101 + 1 + (j + 1) =
          ((stations.length - 1) * 101 + 1 + j) + 1 := by ring
      rw [h1, hstep, ihj]
      simp [simTick]
  intro m hm
  obtain ⟨j, rfl⟩ : ∃ j, m = (stations.length - 1) * 101 + j :=
    ⟨m - (stations.length - 1) * 101, by omega⟩
  unfold simEmit
  cases j with
  | zero =>
    rw [Nat.add_zero, hstate]
    simp [simTick]
  | succ j =>
    have h1 : (stations.length - 1) * 101 + (j + 1) =
        (stations.length - 1) * 101 + 1 + j := by ring
    rw [h1, habs j]
    simp [simTick]

/-- **C3 (amended).** For every route of at least two stations whose
coordinates are all present *and whose latitudes are all nonzero* (the
simulator's `!from?.latitude` truthiness guard treats a present latitude of
`0` exactly like a missing one), the simulated position source emits the
exact coordinates of station `i + 1` at the final interpolation step
(`t = 1`) of segment `i` (firing number `i * 101 + 100`), and from the
completion of the final segment onward (firing number
`(length - 1) * 101`) it never emits a sample again. -/
theorem simulator_exact_boundaries (stations : List SimStation)
    (h2 : 2 ≤ stations.length) (hgood : stations.all goodStation = true) :
    (∀ i, i + 1 < stations.length →
      simEmit stations (i * 101 + 100) =
        some ((stationAt stations (i + 1)).latitude,
          (stationAt stations (i + 1)).longitude)) ∧
    (∀ m, (stations.length - 1) * 101 ≤ m → simEmit stations m = none) :=
  ⟨fun i hi => simEmit_boundary stations hgood i hi,
    simEmit_stops stations hgood h2⟩

/-- Witness for the amended C3 on a concrete two-station route: the segment
boundary firing emits exactly the second station's coordinates, and the
next firing (and all later ones) emit nothing. -/
theorem simulator_exact_boundaries_witness :
    simEmit simDemoStations (0 * 101 + 100) = some (some 12, some 79) ∧
    simEmit simDemoStations 101 = none := by
  have h := simulator_exact_boundaries simDemoStations (by decide) (by decide)
  constructor
  · rw [h.1 0 (by decide)]; rfl
  · exact h.2 101 (by decide)

set_option maxRecDepth 4000 in
/-- **C3 counterexample.** A two-station route in which every station has
both coordinates present, yet the firing at the first segment boundary
(`0 * 101 + 100`) does not emit the second station's coordinates (it emits
nothing at all): the first station's latitude is the present value `0`,
which the JavaScript guard `!from?.latitude` treats as missing, so the
segment is skipped and the simulation stops without ever emitting. This
refutes the claim as stated for routes with present coordinates. -/
theorem simulator_zero_latitude_counterexample :
    (simZeroLatStations.all fun st => st.latitude.isSome && st.longitude.isSome) = true ∧
    2 ≤ simZeroLatStations.length ∧
    simEmit simZeroLatStations (0 * 101 + 100) ≠
      some ((stationAt simZeroLatStations 1).latitude,
        (stationAt simZeroLatStations 1).longitude) := by
  refine ⟨rfl, by decide, ?_⟩
  decide

/-- Helper: two-sided Taylor bounds for `Real.sin` on a nonnegative
interval contained in `[0, 1]`. -/
theorem sin_within {x lo hi : ℝ} (hlo : lo ≤ x) (hhi : x ≤ hi)
    (h0 : 0 ≤ lo) (h1 : hi ≤ 1) :
    lo - hi ^ 3 / 6 - hi ^ 4 * (5 / 96) ≤ Real.sin x ∧
      Real.sin x ≤ hi - lo ^ 3 / 6 + hi ^ 4 * (5 / 96) := by
  have hx0 : 0 ≤ x := le_trans h0 hlo
  have hxabs : |x| ≤ 1 := by rw [abs_of_nonneg hx0]; linarith
  have hb := abs_le.mp (Real.sin_bound hxabs)
  rw [abs_of_nonneg hx0] at hb
  have h3u : x ^ 3 ≤ hi ^ 3 := pow_le_pow_left₀ hx0 hhi 3
  have h3l : lo ^ 3 ≤ x ^ 3 := pow_le_pow_left₀ h0 hlo 3
  have h4u : x ^ 4 ≤ hi ^ 4 := pow_le_pow_left₀ hx0 hhi 4
  constructor
  · linarith [hb.1]
  · linarith [hb.2]

/-- Helper: two-sided bounds for `Real.cos` on a nonnegative interval
contained in `[0, 1]`. -/
theorem cos_within {x lo hi : ℝ} (hlo : lo ≤ x) (hhi : x ≤ hi)
    (h0 : 0 ≤ lo) (h1 : hi ≤ 1) :
    1 - hi ^ 2 / 2 ≤ Real.cos x ∧
      Real.cos x ≤ 1 - lo ^ 2 / 2 + hi ^ 4 * (5 / 96) := by
  have hx0 : 0 ≤ x := le_trans h0 hlo
  have hxabs : |x| ≤ 1 := by rw [abs_of_nonneg hx0]; linarith
  have hb := abs_le.mp (Real.cos_bound hxabs)
  rw [abs_of_nonneg hx0] at hb
  have h2u : x ^ 2 ≤ hi ^ 2 := pow_le_pow_left₀ hx0 hhi 2
  have h2l : lo ^ 2 ≤ x ^ 2 := pow_le_pow_left₀ h0 hlo 2
  have h4u : x ^ 4 ≤ hi ^ 4 := pow_le_pow_left₀ hx0 hhi 4
  constructor
  · have hc := Real.one_sub_sq_div_two_le_cos (x := x)
    linarith
  · linarith [hb.2]


set_option maxHeartbeats 1000000 in
/-- Helper: interval bounds for the haversine `a` value at Chennai Central →
Villupuram Junction, written with positive half-angles. -/
theorem hav_cv_a_bounds :
    (0.000143509 : ℝ) ≤
      Real.sin (1.1434 * (Real.pi / 180) / 2) * Real.sin (1.1434 * (Real.pi / 180) / 2) +
        Real.cos (13.0827 * (Real.pi / 180)) * Real.cos (11.9393 * (Real.pi / 180)) *
        (Real.sin (0.7783 * (Real.pi / 180) / 2) * Real.sin (0.7783 * (Real.pi / 180) / 2)) ∧
    Real.sin (1.1434 * (Real.pi / 180) / 2) * Real.sin (1.1434 * (Real.pi / 180) / 2) +
        Real.cos (13.0827 * (Real.pi / 180)) * Real.cos (11.9393 * (Real.pi / 180)) *
        (Real.sin (0.7783 * (Real.pi / 180) / 2) * Real.sin (0.7783 * (Real.pi / 180) / 2)) ≤
      (0.000143522 : ℝ) := by
  have hpil : (3.141592 : ℝ) < Real.pi := Real.pi_gt_d6
  have hpiu : Real.pi < 3.141593 := Real.pi_lt_d6
  have hu1 : (0.00997804 : ℝ) ≤ 1.1434 * (Real.pi / 180) / 2 := by linarith
  have hu2 : (1.1434 : ℝ) * (Real.pi / 180) / 2 ≤ 0.00997805 := by linarith
  have hv1 : (0.00679194 : ℝ) ≤ 0.7783 * (Real.pi / 180) / 2 := by linarith
  have hv2 : (0.7783 : ℝ) * (Real.pi / 180) / 2 ≤ 0.00679195 := by linarith
  have hp11 : (0.2283361 : ℝ) ≤ 13.0827 * (Real.pi / 180) := by linarith
  have hp12 : (13.0827 : ℝ) * (Real.pi / 180) ≤ 0.2283363 := by linarith
  have hp21 : (0.2083800 : ℝ) ≤ 11.9393 * (Real.pi / 180) := by linarith
  have hp22 : (11.9393 : ℝ) * (Real.pi / 180) ≤ 0.2083802 := by linarith
  have hsu := sin_within hu1 hu2 (by norm_num) (by norm_num)
  have hsu1 : (0.00997787 : ℝ) ≤ Real.sin (1.1434 * (Real.pi / 180) / 2) :=
    le_trans (by norm_num) hsu.1
  have hsu2 : Real.sin (1.1434 * (Real.pi / 180) / 2) ≤ 0.00997789 :=
    le_trans hsu.2 (by norm_num)
  have hsv := sin_within hv1 hv2 (by norm_num) (by norm_num)
  have hsv1 : (0.00679188 : ℝ) ≤ Real.sin (0.7783 * (Real.pi / 180) / 2) :=
    le_trans (by norm_num) hsv.1
  have hsv2 : Real.sin (0.7783 * (Real.pi / 180) / 2) ≤ 0.00679190 :=
    le_trans hsv.2 (by norm_num)
  have hc1 := cos_within hp11 hp12 (by norm_num) (by norm_num)
  have hc11 : (0.973931 : ℝ) ≤ Real.cos (13.0827 * (Real.pi / 180)) :=
    le_trans (by norm_num) hc1.1
  have hc12 : Real.cos (13.0827 * (Real.pi / 180)) ≤ 0.974073 :=
    le_trans hc1.2 (by norm_num)
  have hc2 := cos_within hp21 hp22 (by norm_num) (by norm_num)
  have hc21 : (0.978288 : ℝ) ≤ Real.cos (11.9393 * (Real.pi / 180)) :=
    le_trans (by norm_num) hc2.1
  have hc22 : Real.cos (11.9393 * (Real.pi / 180)) ≤ 0.978388 :=
    le_trans hc2.2 (by norm_num)
  have hP1 : (0.973931 : ℝ) * 0.978288 ≤
      Real.cos (13.0827 * (Real.pi / 180)) * Real.cos (11.9393 * (Real.pi / 180)) :=
    mul_le_mul hc11 hc21 (by norm_num) (by linarith)
  have hP2 : Real.cos (13.0827 * (Real.pi / 180)) * Real.cos (11.9393 * (Real.pi / 180)) ≤
      (0.974073 : ℝ) * 0.978388 :=
    mul_le_mul hc12 hc22 (by linarith) (by norm_num)
  have hsuq1 : (0.00997787 : ℝ) * 0.00997787 ≤
      Real.sin (1.1434 * (Real.pi / 180) / 2) * Real.sin (1.1434 * (Real.pi / 180) / 2) :=
    mul_le_mul hsu1 hsu1 (by norm_num) (by linarith)
  have hsuq2 : Real.sin (1.1434 * (Real.pi / 180) / 2) *
      Real.sin (1.1434 * (Real.pi / 180) / 2) ≤ (0.00997789 : ℝ) * 0.00997789 :=
    mul_le_mul hsu2 hsu2 (by linarith) (by norm_num)
  have hsvq1 : (0.00679188 : ℝ) * 0.00679188 ≤
      Real.sin (0.7783 * (Real.pi / 180) / 2) * Real.sin (0.7783 * (Real.pi / 180) / 2) :=
    mul_le_mul hsv1 hsv1 (by norm_num) (by linarith)
  have hsvq2 : Real.sin (0.7783 * (Real.pi / 180) / 2) *
      Real.sin (0.7783 * (Real.pi / 180) / 2) ≤ (0.00679190 : ℝ) * 0.00679190 :=
    mul_le_mul hsv2 hsv2 (by linarith) (by norm_num)
  have hT1 : ((0.973931 : ℝ) * 0.978288) * ((0.00679188 : ℝ) * 0.00679188) ≤
      (Real.cos (13.0827 * (Real.pi / 180)) * Real.cos (11.9393 * (Real.pi / 180))) *
        (Real.sin (0.7783 * (Real.pi / 180) / 2) * Real.sin (0.7783 * (Real.pi / 180) / 2)) :=
    mul_le_mul hP1 hsvq1 (by norm_num) (by linarith)
  have hT2 : (Real.cos (13.0827 * (Real.pi / 180)) * Real.cos (11.9393 * (Real.pi / 180))) *
        (Real.sin (0.7783 * (Real.pi / 180) / 2) * Real.sin (0.7783 * (Real.pi / 180) / 2)) ≤
      ((0.974073 : ℝ) * 0.978388) * ((0.00679190 : ℝ) * 0.00679190) :=
    mul_le_mul hP2 hsvq2 (mul_self_nonneg _) (by norm_num)
  constructor
  · linarith [hsuq1, hT1]
  · linarith [hsuq2, hT2]

/-- Helper: numeric arctan bounds used for the haversine example. -/
theorem arctan_interval {t : ℝ} (h1 : (0.0119790 : ℝ) ≤ t) (h2 : t ≤ 0.0119810) :
    (0.0119778 : ℝ) ≤ Real.arctan t ∧ Real.arctan t ≤ 0.0119810 := by
  have hpil : (3.141592 : ℝ) < Real.pi := Real.pi_gt_d6
  have hpiu : Real.pi < 3.141593 := Real.pi_lt_d6
  constructor
  · have hcz : (1 : ℝ) - (0.0119778 : ℝ) ^ 2 / 2 ≤ Real.cos 0.0119778 :=
      Real.one_sub_sq_div_two_le_cos (x := (0.0119778 : ℝ))
    have hczpos : (0 : ℝ) < Real.cos 0.0119778 := by nlinarith [hcz]
    have hsz : Real.sin (0.0119778 : ℝ) ≤ 0.0119778 :=
      le_of_lt (Real.sin_lt (by norm_num))
    have htan : Real.tan (0.0119778 : ℝ) ≤ 0.0119790 := by
      rw [Real.tan_eq_sin_div_cos, div_le_iff₀ hczpos]
      nlinarith [hsz, hcz]
    have hz : (0.0119778 : ℝ) = Real.arctan (Real.tan 0.0119778) :=
      (Real.arctan_tan (by nlinarith) (by nlinarith)).symm
    rw [hz]
    exact Real.arctan_strictMono.monotone (le_trans htan h1)
  · have h0 : (0 : ℝ) < t := lt_of_lt_of_le (by norm_num) h1
    have hpos : 0 < Real.arctan t := by
      have h := Real.arctan_strictMono h0
      rwa [Real.arctan_zero] at h
    have hlt := Real.lt_tan hpos (Real.arctan_lt_pi_div_two _)
    rw [Real.tan_arctan] at hlt
    linarith

/-- Helper: bounds for the tail of the haversine computation
(`6371 * (2 * atan2 √a √(1-a))`) for any `a` in the interval established by
`hav_cv_a_bounds`. -/
theorem hav_tail_bounds {A : ℝ} (hA1 : (0.000143509 : ℝ) ≤ A)
    (hA2 : A ≤ 0.000143522) :
    151.7 ≤ 6371 * (2 * atan2 (Real.sqrt A) (Real.sqrt (1 - A))) ∧
      6371 * (2 * atan2 (Real.sqrt A) (Real.sqrt (1 - A))) ≤ 153.7 := by
  have hsq1 : (0.0119790 : ℝ) ≤ Real.sqrt A :=
    Real.le_sqrt_of_sq_le (by nlinarith [hA1])
  have hsq2 : Real.sqrt A ≤ 0.0119801 := by
    rw [show (0.0119801 : ℝ) = Real.sqrt (0.0119801 ^ 2) from
      (Real.sqrt_sq (by norm_num)).symm]
    exact Real.sqrt_le_sqrt (by nlinarith [hA2])
  have hsb1 : (0.9999282 : ℝ) ≤ Real.sqrt (1 - A) :=
    Real.le_sqrt_of_sq_le (by nlinarith [hA2])
  have hsb2 : Real.sqrt (1 - A) ≤ 1 := by
    rw [Real.sqrt_le_iff]
    refine ⟨by norm_num, ?_⟩
    nlinarith [hA1]
  have hbpos : (0 : ℝ) < Real.sqrt (1 - A) := lt_of_lt_of_le (by norm_num) hsb1
  have ht1 : (0.0119790 : ℝ) ≤ Real.sqrt A / Real.sqrt (1 - A) := by
    have h := le_div_self (le_trans (by norm_num) hsq1) hbpos hsb2
    linarith
  have ht2 : Real.sqrt A / Real.sqrt (1 - A) ≤ 0.0119810 := by
    rw [div_le_iff₀ hbpos]
    nlinarith [hsq2, hsb1]
  have hatan2 : atan2 (Real.sqrt A) (Real.sqrt (1 - A)) =
      Real.arctan (Real.sqrt A / Real.sqrt (1 - A)) := by
    unfold atan2
    rw [if_pos hbpos]
  obtain ⟨harc1, harc2⟩ := arctan_interval ht1 ht2
  rw [hatan2]
  constructor
  · linarith
  · linarith

set_option maxHeartbeats 1000000 in
/-- Shared numeric fact: the haversine value computed by the code for
Chennai Central `(13.0827, 80.2707)` → Villupuram Junction
`(11.9393, 79.4924)` lies between 151.7 km and 153.7 km (its true value is
about 152.65 km). -/
theorem haversine_chennai_villupuram_bounds :
    151.7 ≤ haversine 13.0827 80.2707 11.9393 79.4924 ∧
      haversine 13.0827 80.2707 11.9393 79.4924 ≤ 153.7 := by
  have hA : Real.sin (((11.9393 : ℝ) - 13.0827) * (Real.pi / 180) / 2) *
        Real.sin (((11.9393 : ℝ) - 13.0827) * (Real.pi / 180) / 2) +
        Real.cos ((13.0827 : ℝ) * (Real.pi / 180)) *
        Real.cos ((11.9393 : ℝ) * (Real.pi / 180)) *
        Real.sin (((79.4924 : ℝ) - 80.2707) * (Real.pi / 180) / 2) *
        Real.sin (((79.4924 : ℝ) - 80.2707) * (Real.pi / 180) / 2) =
      Real.sin ((1.1434 : ℝ) * (Real.pi / 180) / 2) *
        Real.sin ((1.1434 : ℝ) * (Real.pi / 180) / 2) +
        Real.cos ((13.0827 : ℝ) * (Real.pi / 180)) *
        Real.cos ((11.9393 : ℝ) * (Real.pi / 180)) *
        (Real.sin ((0.7783 : ℝ) * (Real.pi / 180) / 2) *
          Real.sin ((0.7783 : ℝ) * (Real.pi / 180) / 2)) := by
    have e1 : ((11.9393 : ℝ) - 13.0827) * (Real.pi / 180) / 2 =
        -((1.1434 : ℝ) * (Real.pi / 180) / 2) := by ring
    have e2 : ((79.4924 : ℝ) - 80.2707) * (Real.pi / 180) / 2 =
        -((0.7783 : ℝ) * (Real.pi / 180) / 2) := by ring
    rw [e1, e2]
    simp only [Real.sin_neg]
    ring
  simp only [haversine, toRadians, EARTH_RADIUS_KM]
  rw [hA]
  exact hav_tail_bounds hav_cv_a_bounds.1 hav_cv_a_bounds.2

/-- **C8 counterexample.** The code's distance for Chennai Central →
Villupuram Junction is *not* within 1 km of 137 km: it is between 151.7 and
153.7 km (about 152.65 km), more than 14 km above the claimed figure. -/
theorem chennai_villupuram_not_137 :
    ¬ |haversine 13.0827 80.2707 11.9393 79.4924 - 137| ≤ 1 := by
  have h := haversine_chennai_villupuram_bounds
  rw [abs_le]
  intro hc
  linarith [h.1, hc.2]

/-- **C8 (amended).** `calculateDistance` on Chennai Central
`(13.0827, 80.2707)` and Villupuram Junction `(11.9393, 79.4924)` evaluates
the haversine body with Earth radius 6371 km and degree-to-radian conversion,
and that value is within 1 km of 152.7 km (not of the 137 km stated in the
claim). -/
theorem chennai_villupuram_distance :
    calculateDistance (some 13.0827) (some 80.2707) (some 11.9393) (some 79.4924) =
      ((haversine 13.0827 80.2707 11.9393 79.4924 : ℝ) : WithTop ℝ) ∧
    |haversine 13.0827 80.2707 11.9393 79.4924 - 152.7| ≤ 1 := by
  refine ⟨rfl, ?_⟩
  have h := haversine_chennai_villupuram_bounds
  rw [abs_le]
  constructor
  · linarith [h.2]
  · linarith [h.1]
